import Mathlib

/-!
Shallow embedding of the table-extraction and session-lifecycle layer of
`src/app.py` (Gokaraju student-portal scraper), together with theorems
settling the specification claims about it.

Strings scraped from the page are modelled as Lean `String`s and all
operations work on their underlying `List Char`, mirroring the Python
string methods used by the source (`str.strip`, `str.isdigit`,
`str.lower`, `str.startswith`, the `in` substring test, `str.replace`
and `str.rstrip`).
-/

namespace GSPT

/-! ### Python string primitives -/

/-- The non-breaking-space character removed by `.replace("\xa0", "")`
in `src/app.py` lines 71 and 81. -/
def nbspChar : Char := '\xa0'

/-- Characters treated as whitespace by Python's `str.strip()`
(the ASCII whitespace characters plus the non-breaking space, the only
non-ASCII whitespace this page data can contain). -/
def pyWhite (c : Char) : Bool :=
  c == ' ' || c == '\t' || c == '\n' || c == '\r' || c == '\x0b' ||
  c == '\x0c' || c == nbspChar

/-- List-level model of Python `str.strip()`: drop whitespace from the
front, then from the back. -/
def pyStripList (l : List Char) : List Char :=
  ((l.dropWhile pyWhite).reverse.dropWhile pyWhite).reverse

/-- Python `str.strip()`. -/
def pyStrip (s : String) : String := ⟨pyStripList s.data⟩

/-- Python `str.isdigit()` restricted to the ASCII digits that portal
serial numbers consist of: true iff the string is non-empty and every
character is a decimal digit. -/
def pyIsDigit (s : String) : Bool :=
  !s.data.isEmpty && s.data.all Char.isDigit

/-- Python `str.replace("\xa0", "")`: remove every non-breaking space. -/
def removeNbsp (s : String) : String :=
  ⟨s.data.filter (fun c => c != nbspChar)⟩

/-- The cell-text normalisation used for timetable and faculty rows in
`src/app.py` lines 71 and 81: `.strip().replace("\xa0", "")`. -/
def cleanCell (s : String) : String := removeNbsp (pyStrip s)

/-- Python `str.lower()` (character-wise ASCII lowering, which is all
the header texts involved need). -/
def lowerPy (s : String) : String := ⟨s.data.map Char.toLower⟩

/-- Python `s.startswith(pat)`. -/
def startsWithPy (s pat : String) : Bool := pat.data.isPrefixOf s.data

/-- Helper for the Python substring test: does `pat` occur contiguously
in the list? -/
def containsSubList (pat : List Char) : List Char → Bool
  | [] => pat.isEmpty
  | c :: rest => pat.isPrefixOf (c :: rest) || containsSubList pat rest

/-- Python's `pat in s` substring test. -/
def containsSub (s pat : String) : Bool := containsSubList pat.data s.data

/-- Python `s.rstrip(":")`: remove every trailing colon. -/
def rstripColon (s : String) : String :=
  ⟨(s.data.reverse.dropWhile (fun c => c == ':')).reverse⟩

/-! ### DOM and record model

A scraped record is an ordered association of field names to string
values (Python builds a `dict` by `dict(zip(headers, vals))`; insertion
order is preserved, so a list of pairs is the faithful model). -/

abbrev Record := List (String × String)

/-- A DOM table cell: `th` marks a `<th>` element (selected by the
`td, th` header selectors but not by the `td` data selectors). -/
structure Cell where
  th : Bool
  text : String
deriving DecidableEq, Repr

/-- A DOM table row, as its ordered cells. -/
abbrev Row := List Cell

/-- A DOM table, as its ordered `tr` rows. -/
abbrev Table := List Row

/-- Texts of the row's `td` cells only (the data-cell selector `"td"`). -/
def tdTexts (r : Row) : List String :=
  (r.filter (fun c => !c.th)).map Cell.text

/-- Texts of all the row's cells (the header selector `"td, th"`). -/
def allTexts (r : Row) : List String := r.map Cell.text

/-! ### Attendance rows (`src/app.py` lines 135-143) -/

/-- The fixed attendance schema of `src/app.py` line 136. -/
def attendanceHeaders : List String := ["Sl.No.", "Subject", "Held", "Attend", "%"]

/-- One iteration of the attendance row loop (`src/app.py` lines
138-143): keep the row iff it has exactly 5 `td` cells and its first
stripped cell text `isdigit`, zipping against the fixed schema. -/
def attendanceRowRecord (cols : List String) : Option Record :=
  if cols.length == 5 then
    let vals := cols.map pyStrip
    if pyIsDigit (vals.headD "") then some (attendanceHeaders.zip vals) else none
  else none

/-- The attendance data list built by the loop of `src/app.py` lines
137-143, from the `td` texts of each `table.cellBorder tr` row. -/
def attendance_data (rows : List (List String)) : List Record :=
  rows.filterMap attendanceRowRecord

/-! ### Library rows (`src/app.py` lines 163-171) -/

/-- The fixed library schema of `src/app.py` line 164. -/
def libraryHeaders : List String :=
  ["Sl.No", "Acc.No", "Title", "Author", "Issue Date", "Due Date", "Fine Days", "Fine Amount"]

/-- One iteration of the library row loop (`src/app.py` lines 166-171):
keep the row iff it has exactly 8 `td` cells and its first stripped
cell text `isdigit`. -/
def libraryRowRecord (cols : List String) : Option Record :=
  if cols.length == 8 then
    let vals := cols.map pyStrip
    if pyIsDigit (vals.headD "") then some (libraryHeaders.zip vals) else none
  else none

/-- The library data list built by `src/app.py` lines 165-171. -/
def library_books_data (rows : List (List String)) : List Record :=
  rows.filterMap libraryRowRecord

/-! ### Timetable and faculty-allocation tables (`src/app.py` lines 55-96) -/

/-- Header texts of a table: the stripped texts of the first row's
`td, th` cells (`src/app.py` lines 62-63). -/
def headerTexts (t : Table) : List String :=
  (allTexts (t.headD [])).map pyStrip

/-- Timetable detection of `src/app.py` line 66: some header text,
lowercased, starts with `"day"` or contains `"period"`. -/
def timetableMatch (hs : List String) : Bool :=
  hs.any fun h => startsWithPy (lowerPy h) "day" || containsSub (lowerPy h) "period"

/-- Faculty-allocation detection of `src/app.py` line 77: some header
text, lowercased, contains `"subject code"` or `"faculty"`. -/
def facultyMatch (hs : List String) : Bool :=
  hs.any fun h => containsSub (lowerPy h) "subject code" || containsSub (lowerPy h) "faculty"

/-- The fixed timetable schema `std_headers` of `src/app.py` line 68. -/
def timetableStdHeaders : List String :=
  ["Day", "Period 1", "Period 2", "Period 3", "Break", "Period 4", "Period 5",
   "Period 6", "Period 7"]

/-- One iteration of the timetable row loop (`src/app.py` lines 69-74):
clean the `td` texts and keep the row iff its cell count equals the
9-element schema length. -/
def timetableRowRecord (r : Row) : Option Record :=
  let values := (tdTexts r).map cleanCell
  if values.length == timetableStdHeaders.length then
    some (timetableStdHeaders.zip values)
  else none

/-- One iteration of the faculty row loop (`src/app.py` lines 79-88):
keep the row iff it has at least 3 cleaned `td` cells, mapping
cells 0-2 to the three named fields and cell 3 (when present) to
`Initials`, else the empty string. -/
def facultyRowRecord (r : Row) : Option Record :=
  let values := (tdTexts r).map cleanCell
  if values.length ≥ 3 then
    some [("Subject Code", values.headD ""),
          ("Subject", values.getD 1 ""),
          ("Faculty Name", values.getD 2 ""),
          ("Initials", values.getD 3 "")]
  else none

/-- All timetable records contributed by one table (rows after the
header row, `rows[1:]` at `src/app.py` line 69). -/
def timetableRowsOf (t : Table) : List Record :=
  (t.drop 1).filterMap timetableRowRecord

/-- All faculty records contributed by one table (`rows[1:]` at
`src/app.py` line 79). -/
def facultyRowsOf (t : Table) : List Record :=
  (t.drop 1).filterMap facultyRowRecord

/-- The extraction loop of `extract_timetable_and_faculty`
(`src/app.py` lines 61-88): the two detections are evaluated
independently for every candidate table, each appending its rows to
its own accumulator. -/
def extract_timetable_and_faculty (tables : List Table) : List Record × List Record :=
  tables.foldl
    (fun acc t =>
      let tt := if timetableMatch (headerTexts t) then acc.1 ++ timetableRowsOf t else acc.1
      let fa := if facultyMatch (headerTexts t) then acc.2 ++ facultyRowsOf t else acc.2
      (tt, fa))
    ([], [])

/-! ### Academic calendar (`src/app.py` lines 98-119) -/

/-- The calendar header list: stripped texts of the first row's
`td, th` cells (`src/app.py` lines 108-109). -/
def calHeaders (r0 : Row) : List String := (allTexts r0).map pyStrip

/-- One iteration of the calendar row loop (`src/app.py` lines
111-115): accept the row iff its stripped `td` cell count equals the
header cell count, then zip by position. -/
def calRowRecord (headers : List String) (r : Row) : Option Record :=
  let values := (tdTexts r).map pyStrip
  if values.length == headers.length then some (headers.zip values) else none

/-- `extract_academic_calendar` (`src/app.py` lines 98-119): `none`
models a page with no matching container table; an empty row list is
also a valid empty result. -/
def extract_academic_calendar (container : Option (List Row)) : List Record :=
  match container with
  | none => []
  | some [] => []
  | some (r0 :: rest) => rest.filterMap (calRowRecord (calHeaders r0))

/-! ### Bio-data personal details (`src/app.py` lines 199-216) -/

/-- The key/value pairs one personal-details row assigns into the `bio`
mapping (`src/app.py` lines 202-216): a two-cell row yields its single
label/value pair when both are non-empty; a row with six or more cells
yields the pair at columns 0/2 and the pair at columns 3/5, each kept
independently when both halves are non-empty; any other cell count
contributes nothing. -/
def bioRowPairs (cells : List String) : List (String × String) :=
  let cnt := cells.length
  if cnt == 2 then
    let k := rstripColon (pyStrip (cells.headD ""))
    let v := pyStrip (cells.getD 1 "")
    if k != "" && v != "" then [(k, v)] else []
  else if cnt ≥ 6 then
    let k1 := rstripColon (pyStrip (cells.headD ""))
    let v1 := pyStrip (cells.getD 2 "")
    let k2 := rstripColon (pyStrip (cells.getD 3 ""))
    let v2 := pyStrip (cells.getD 5 "")
    (if k1 != "" && v1 != "" then [(k1, v1)] else []) ++
    (if k2 != "" && v2 != "" then [(k2, v2)] else [])
  else []

/-! ### Bio-data education records (`src/app.py` lines 218-261) -/

/-- The eight string fields of one education record
(`src/app.py` lines 222-224). -/
structure EduRec where
  Board : String
  HallTicketNo : String
  YearOfPass : String
  Institute : String
  MaxMarks : String
  Obtained : String
  GradeLetter : String
  GradePoints : String
deriving DecidableEq, Repr

/-- The all-empty default education record. -/
def emptyEduRec : EduRec := ⟨"", "", "", "", "", "", "", ""⟩

/-- The three fixed education keys of the `edu` dictionary. -/
inductive EduKey where
  | ssc
  | inter
  | diploma
deriving DecidableEq, Repr

/-- The qualification vocabulary match of `src/app.py` lines 227-240:
`none` when the row has fewer than 7 cells, when the
stripped-and-lowered qualification text is empty, or when it is not in
the fixed vocabulary. -/
def qualKeyOf (cells : List String) : Option EduKey :=
  if cells.length < 7 then none
  else
    let qual := lowerPy (pyStrip (cells.headD ""))
    if qual == "" then none
    else if qual == "ssc" || qual == "s.s.c" then some .ssc
    else if qual == "inter" || qual == "intermediate" then some .inter
    else if qual == "diploma" then some .diploma
    else none

/-- The eight extracted target fields of `src/app.py` lines 242-249:
stripped cells 1-6 always, cells 7 and 8 only when present. -/
def eduFields (cells : List String) : EduRec :=
  { Board := pyStrip (cells.getD 1 "")
    HallTicketNo := pyStrip (cells.getD 2 "")
    YearOfPass := pyStrip (cells.getD 3 "")
    Institute := pyStrip (cells.getD 4 "")
    MaxMarks := pyStrip (cells.getD 5 "")
    Obtained := pyStrip (cells.getD 6 "")
    GradeLetter := if cells.length > 7 then pyStrip (cells.getD 7 "") else ""
    GradePoints := if cells.length > 8 then pyStrip (cells.getD 8 "") else "" }

/-- The `edu` dictionary state: one record per fixed key. -/
structure EduState where
  ssc : EduRec
  inter : EduRec
  diploma : EduRec
deriving DecidableEq, Repr

/-- The pre-populated `edu` dictionary of `src/app.py` lines 221-225. -/
def initEduState : EduState := ⟨emptyEduRec, emptyEduRec, emptyEduRec⟩

/-- Overwrite one key's record. -/
def setEdu (st : EduState) (k : EduKey) (r : EduRec) : EduState :=
  match k with
  | .ssc => { st with ssc := r }
  | .inter => { st with inter := r }
  | .diploma => { st with diploma := r }

/-- One iteration of the education row loop (`src/app.py` lines
227-261): skip unrecognised rows; for a recognised row, overwrite the
matched record only when `any([B,H,Y,I,Mx,Ob,GL,GP])` holds, i.e. when
the extracted record is not all-empty. -/
def processEduRow (st : EduState) (cells : List String) : EduState :=
  match qualKeyOf cells with
  | none => st
  | some k =>
    let r := eduFields cells
    if r = emptyEduRec then st else setEdu st k r

/-! ### Persisted artifacts

Which output files each scrape writes on its success path, as a
function of the extracted data (the file-write statements of
`src/app.py`). -/

/-- Files written by `extract_timetable_and_faculty`
(`src/app.py` lines 90-94): each JSON file is written only when its
list is non-empty. -/
def timetableSavedFiles (timetable faculty : List Record) : List String :=
  (if timetable.isEmpty then [] else ["timetable.json"]) ++
  (if faculty.isEmpty then [] else ["faculty_allocation.json"])

/-- Files written by `extract_academic_calendar`
(`src/app.py` lines 117-118): only when the calendar is non-empty. -/
def calendarSavedFiles (calendar : List Record) : List String :=
  if calendar.isEmpty then [] else ["academic_calendar.json"]

/-- Files written by `fetch_attendance` (`src/app.py` lines 148-153):
unconditionally, whatever the data. -/
def attendanceSavedFiles (_data : List Record) : List String :=
  ["attendance_data.json", "attendance_data.csv"]

/-- Files written by `fetch_library_books` (`src/app.py` lines
175-180): unconditionally, whatever the data. -/
def librarySavedFiles (_data : List Record) : List String :=
  ["library_books.json", "library_books.csv"]

/-- Files written by `fetch_bio_data` (`src/app.py` lines 266-277):
unconditionally, whatever the data. -/
def bioSavedFiles (_bio : List (String × String)) (_edu : EduState) : List String :=
  ["bio_data.json", "bio_data.csv"]

/-- Header row of `attendance_data.csv`: `csv.DictWriter` with
`fieldnames=headers` followed by `writeheader()`
(`src/app.py` lines 150-152). -/
def attendanceCsvHeader : List String := attendanceHeaders

/-- Header row of `library_books.csv` (`src/app.py` lines 177-179). -/
def libraryCsvHeader : List String := libraryHeaders

/-- Header row of `bio_data.csv` (`src/app.py` line 272). -/
def bioCsvHeader : List String := ["Section", "Subsection", "Field", "Value"]

/-! ### Session lifecycle traces

Each `fetch_*` coroutine is modelled as a straight-line sequence of
awaited operations, each of which either succeeds or raises; `fails n`
says whether the n-th operation raises. The result is the pair
(finished normally?, number of `browser.close()` calls performed).
An exception propagates out of the `async with async_playwright()`
block (which stops the Playwright driver but performs no
`browser.close()` call), so a raise at stage n skips everything after
stage n.

Stage numbering shared by both traces, following `login_and_get_page`
(`src/app.py` lines 40-52):
  0 `playwright.chromium.launch` (the browser/session exists once this
    succeeds), 1 `browser.new_page`, 2 `page.goto(LOGIN_URL)`,
  3 `page.fill("#txtId2", ...)`, 4 `page.fill("#txtPwd2", ...)`,
  5 `page.click("#imgBtn2")`, 6 `page.wait_for_timeout(2000)`. -/

/-- Trace of `fetch_attendance` (`src/app.py` lines 121-155).
Stages after login: 7 `page.goto(ATTENDANCE_URL)`,
8 `wait_for_load_state`, 9-10 the `try`-guarded filter interaction
(failures swallowed by the bare `except`), 11 `wait_for_timeout(1500)`,
12 the row queries and text extraction, then `browser.close()`, then
13 the JSON write and 14 the CSV write. -/
def fetch_attendance_trace (fails : Nat → Bool) : Bool × Nat :=
  if fails 0 then (false, 0)
  else if fails 1 then (false, 0)
  else if fails 2 then (false, 0)
  else if fails 3 then (false, 0)
  else if fails 4 then (false, 0)
  else if fails 5 then (false, 0)
  else if fails 6 then (false, 0)
  else if fails 7 then (false, 0)
  else if fails 8 then (false, 0)
  else if fails 11 then (false, 0)
  else if fails 12 then (false, 0)
  else if fails 13 then (false, 1)
  else if fails 14 then (false, 1)
  else (true, 1)

/-- Trace of `fetch_timetable_and_calendar` (`src/app.py` lines
281-299). Stages after login: 7 `page.goto(TIMETABLE_URL)`,
8 `wait_for_selector("#tblReport")`, 9 `extract_timetable_and_faculty`
(queries and its file writes), 10 `page.goto(ACADEMIC_CALENDAR_URL)`,
11 `wait_for_timeout(1000)`, 12 `extract_academic_calendar`, then
`browser.close()` and the plain return. -/
def fetch_timetable_and_calendar_trace (fails : Nat → Bool) : Bool × Nat :=
  if fails 0 then (false, 0)
  else if fails 1 then (false, 0)
  else if fails 2 then (false, 0)
  else if fails 3 then (false, 0)
  else if fails 4 then (false, 0)
  else if fails 5 then (false, 0)
  else if fails 6 then (false, 0)
  else if fails 7 then (false, 0)
  else if fails 8 then (false, 0)
  else if fails 9 then (false, 0)
  else if fails 10 then (false, 0)
  else if fails 11 then (false, 0)
  else if fails 12 then (false, 0)
  else (true, 1)

/-! ### Helper lemmas about the string primitives -/

lemma headNotWhite_dropWhile (l : List Char) {c : Char}
    (h : (l.dropWhile pyWhite).head? = some c) : pyWhite c = false := by
  have hd := List.head?_dropWhile_not pyWhite l
  rw [h] at hd
  exact hd

lemma dropWhile_eq_self_of_headClean (l : List Char)
    (h : ∀ c, l.head? = some c → pyWhite c = false) :
    l.dropWhile pyWhite = l := by
  cases l with
  | nil => rfl
  | cons a t =>
    have ha : pyWhite a = false := h a rfl
    simp [List.dropWhile_cons, ha]

lemma headClean_filter (l : List Char)
    (h : ∀ c, l.head? = some c → pyWhite c = false) :
    ∀ c, (l.filter (fun c => c != nbspChar)).head? = some c → pyWhite c = false := by
  cases l with
  | nil => intro c hc; simp at hc
  | cons a t =>
    have ha : pyWhite a = false := h a rfl
    have hnb : pyWhite nbspChar = true := by decide
    have hne : (a != nbspChar) = true := by
      simp only [bne_iff_ne, ne_eq]
      intro he
      rw [he, hnb] at ha
      simp at ha
    intro c hc
    simp only [List.filter_cons, hne, if_pos, List.head?_cons, Option.some.injEq] at hc
    exact hc ▸ ha

lemma headClean_pyStripList (l : List Char) :
    ∀ c, (pyStripList l).head? = some c → pyWhite c = false := by
  intro c h
  have hsplit :
      (l.dropWhile pyWhite).reverse.takeWhile pyWhite ++
        (l.dropWhile pyWhite).reverse.dropWhile pyWhite =
        (l.dropWhile pyWhite).reverse :=
    List.takeWhile_append_dropWhile pyWhite _
  have ha2 : l.dropWhile pyWhite =
      ((l.dropWhile pyWhite).reverse.dropWhile pyWhite).reverse ++
        ((l.dropWhile pyWhite).reverse.takeWhile pyWhite).reverse := by
    have h2 := congrArg List.reverse hsplit.symm
    rwa [List.reverse_reverse, List.reverse_append] at h2
  apply headNotWhite_dropWhile l (c := c)
  rw [ha2, List.head?_append]
  have hbr : (((l.dropWhile pyWhite).reverse.dropWhile pyWhite).reverse).head? = some c := by
    simpa [pyStripList] using h
  simp [hbr]

lemma tailClean_pyStripList (l : List Char) :
    ∀ c, (pyStripList l).reverse.head? = some c → pyWhite c = false := by
  intro c h
  rw [pyStripList, List.reverse_reverse] at h
  exact headNotWhite_dropWhile _ h

lemma pyStripList_filter_nbsp (l : List Char) :
    pyStripList ((pyStripList l).filter (fun c => c != nbspChar)) =
      (pyStripList l).filter (fun c => c != nbspChar) := by
  have hfront := headClean_filter (pyStripList l) (headClean_pyStripList l)
  have hback : ∀ c,
      ((pyStripList l).filter (fun c => c != nbspChar)).reverse.head? = some c →
        pyWhite c = false := by
    have hrev : ((pyStripList l).filter (fun c => c != nbspChar)).reverse =
        (pyStripList l).reverse.filter (fun c => c != nbspChar) :=
      (List.filter_reverse _ _).symm
    rw [hrev]
    exact headClean_filter (pyStripList l).reverse (tailClean_pyStripList l)
  show pyStripList _ = _
  rw [pyStripList, dropWhile_eq_self_of_headClean _ hfront,
      dropWhile_eq_self_of_headClean _ hback, List.reverse_reverse]

lemma pyStrip_cleanCell (s : String) : pyStrip (cleanCell s) = cleanCell s :=
  congrArg String.mk (pyStripList_filter_nbsp s.data)

lemma cleanCell_no_nbsp (s : String) :
    (cleanCell s).data.all (fun c => c != nbspChar) = true := by
  show ((pyStripList s.data).filter (fun c => c != nbspChar)).all
    (fun c => c != nbspChar) = true
  rw [List.all_eq_true]
  intro c hc
  exact (List.mem_filter.mp hc).2

lemma headD_map_pyStrip (cols : List String) :
    (cols.map pyStrip).headD "" = pyStrip (cols.headD "") := by
  cases cols with
  | nil => rfl
  | cons a t => rfl

lemma head?_map_pyStrip (cols : List String) :
    (Option.map pyStrip cols.head?).getD "" = pyStrip (cols.head?.getD "") := by
  cases cols with
  | nil => rfl
  | cons a t => rfl

lemma attendanceRowRecord_eq (cols : List String) :
    attendanceRowRecord cols =
      if cols.length = 5 ∧ pyIsDigit (pyStrip (cols.headD "")) = true then
        some (attendanceHeaders.zip (cols.map pyStrip))
      else none := by
  unfold attendanceRowRecord
  by_cases h5 : cols.length = 5
  · by_cases hd : pyIsDigit (pyStrip (cols.headD "")) = true
    · simp [h5, hd, headD_map_pyStrip, head?_map_pyStrip]
    · simp [h5, hd, headD_map_pyStrip, head?_map_pyStrip]
  · simp [h5]

lemma libraryRowRecord_eq (cols : List String) :
    libraryRowRecord cols =
      if cols.length = 8 ∧ pyIsDigit (pyStrip (cols.headD "")) = true then
        some (libraryHeaders.zip (cols.map pyStrip))
      else none := by
  unfold libraryRowRecord
  by_cases h8 : cols.length = 8
  · by_cases hd : pyIsDigit (pyStrip (cols.headD "")) = true
    · simp [h8, hd, headD_map_pyStrip, head?_map_pyStrip]
    · simp [h8, hd, headD_map_pyStrip, head?_map_pyStrip]
  · simp [h8]

/-! ### Claim theorems -/

/-- C3: for every row of an attendance table, a Record is emitted iff
the row has exactly 5 cells and the first cell's trimmed text is a
valid non-negative integer string; the row
`["1","Maths","40","38","95.0"]` yields the stated Record and the row
`["Total","","","",""]` is dropped. -/
theorem attendance_row_emission :
    (∀ cols : List String,
        attendanceRowRecord cols =
          if cols.length = 5 ∧ pyIsDigit (pyStrip (cols.headD "")) = true then
            some (attendanceHeaders.zip (cols.map pyStrip))
          else none) ∧
    (∀ rows : List (List String),
        attendance_data rows = rows.filterMap attendanceRowRecord) ∧
    attendanceRowRecord ["1", "Maths", "40", "38", "95.0"] =
      some [("Sl.No.", "1"), ("Subject", "Maths"), ("Held", "40"),
            ("Attend", "38"), ("%", "95.0")] ∧
    attendanceRowRecord ["Total", "", "", "", ""] = none := by
  refine ⟨attendanceRowRecord_eq, fun _ => rfl, ?_, ?_⟩
  · rfl
  · rfl

/-- C9: for every row of the library books table, a Record is emitted
iff the row has exactly 8 cells and the first cell's trimmed text is a
valid non-negative integer string. -/
theorem library_row_emission :
    (∀ cols : List String,
        libraryRowRecord cols =
          if cols.length = 8 ∧ pyIsDigit (pyStrip (cols.headD "")) = true then
            some (libraryHeaders.zip (cols.map pyStrip))
          else none) ∧
    (∀ rows : List (List String),
        library_books_data rows = rows.filterMap libraryRowRecord) :=
  ⟨libraryRowRecord_eq, fun _ => rfl⟩

/-- C4: the timetable and faculty-allocation classifications are
evaluated independently for every candidate table; a table is
classified as timetable iff some trimmed first-row header cell,
lowercased, starts with "day" or contains "period", and as
faculty-allocation iff some such cell contains "subject code" or
"faculty"; a table matching neither contributes no Records to either
kind, and a table matching both is processed by both. -/
theorem table_classification_independent :
    (∀ hs : List String,
        timetableMatch hs = true ↔
          ∃ h ∈ hs, startsWithPy (lowerPy h) "day" = true ∨
            containsSub (lowerPy h) "period" = true) ∧
    (∀ hs : List String,
        facultyMatch hs = true ↔
          ∃ h ∈ hs, containsSub (lowerPy h) "subject code" = true ∨
            containsSub (lowerPy h) "faculty" = true) ∧
    (∀ t : Table,
        extract_timetable_and_faculty [t] =
          ((if timetableMatch (headerTexts t) then timetableRowsOf t else []),
           (if facultyMatch (headerTexts t) then facultyRowsOf t else []))) := by
  refine ⟨?_, ?_, ?_⟩
  · intro hs
    simp [timetableMatch, List.any_eq_true]
  · intro hs
    simp [facultyMatch, List.any_eq_true]
  · intro t
    simp only [extract_timetable_and_faculty, List.foldl_cons, List.foldl_nil]
    split <;> split <;> simp

/-- C5: for every non-header row of a classified timetable table, a
Record is emitted iff the row has exactly 9 cells, pairing the fixed
schema with the cleaned cell texts; cleaning removes every
non-breaking-space character and leaves nothing further for the
whitespace trim to remove; rows with any other cell count contribute
no record. -/
theorem timetable_row_emission :
    (∀ r : Row,
        timetableRowRecord r =
          if (tdTexts r).length = 9 then
            some (timetableStdHeaders.zip ((tdTexts r).map cleanCell))
          else none) ∧
    (∀ t : Table, timetableRowsOf t = (t.drop 1).filterMap timetableRowRecord) ∧
    (∀ s : String, (cleanCell s).data.all (fun c => c != nbspChar) = true) ∧
    (∀ s : String, pyStrip (cleanCell s) = cleanCell s) := by
  refine ⟨?_, fun _ => rfl, cleanCell_no_nbsp, pyStrip_cleanCell⟩
  intro r
  unfold timetableRowRecord
  by_cases h9 : (tdTexts r).length = 9 <;> simp [h9, timetableStdHeaders]

/-- C8: for every non-header row of a classified faculty-allocation
table, a Record is emitted iff the row has at least 3 cells, mapping
cell 0 to Subject Code, cell 1 to Subject, cell 2 to Faculty Name and
cell 3 to Initials, the latter defaulting to the empty string when the
row has only 3 cells. -/
theorem faculty_row_mapping :
    (∀ r : Row,
        facultyRowRecord r =
          if 3 ≤ (tdTexts r).length then
            some [("Subject Code", ((tdTexts r).map cleanCell).headD ""),
                  ("Subject", ((tdTexts r).map cleanCell).getD 1 ""),
                  ("Faculty Name", ((tdTexts r).map cleanCell).getD 2 ""),
                  ("Initials", ((tdTexts r).map cleanCell).getD 3 "")]
          else none) ∧
    (∀ t : Table, facultyRowsOf t = (t.drop 1).filterMap facultyRowRecord) := by
  refine ⟨?_, fun _ => rfl⟩
  intro r
  unfold facultyRowRecord
  by_cases h3 : 3 ≤ (tdTexts r).length <;> simp [h3]

/-- C7: for the academic calendar, a row is accepted and zipped by
position into a Record iff its cell count equals the header-row cell
count, and a page with no matching container table (or an empty one)
yields the empty result rather than an error. -/
theorem calendar_row_acceptance :
    extract_academic_calendar none = [] ∧
    extract_academic_calendar (some []) = [] ∧
    (∀ (r0 : Row) (rest : List Row),
        extract_academic_calendar (some (r0 :: rest)) =
          rest.filterMap (calRowRecord (calHeaders r0))) ∧
    (∀ (headers : List String) (r : Row),
        calRowRecord headers r =
          if (tdTexts r).length = headers.length then
            some (headers.zip ((tdTexts r).map pyStrip))
          else none) := by
  refine ⟨rfl, rfl, fun _ _ => rfl, ?_⟩
  intro headers r
  unfold calRowRecord
  by_cases h : (tdTexts r).length = headers.length <;> simp [h]

/-- C1 (resource-safety trace): on the success path each of the two
cited scrapes performs exactly one browser.close, but an exception
raised after the session is opened (stage 0 succeeds) — here at
stage 7, the first page.goto after login — aborts the coroutine with
zero browser.close calls, so a close does not occur on every exit
path. -/
theorem session_close_trace :
    (fun n => n == 7) 0 = false ∧
    fetch_attendance_trace (fun n => n == 7) = (false, 0) ∧
    fetch_attendance_trace (fun _ => false) = (true, 1) ∧
    fetch_timetable_and_calendar_trace (fun n => n == 7) = (false, 0) ∧
    fetch_timetable_and_calendar_trace (fun _ => false) = (true, 1) :=
  ⟨rfl, rfl, rfl, rfl, rfl⟩

/-- C2 counterexample: a successful timetable-and-calendar scrape
yielding zero records writes no JSON file at all for the timetable,
faculty-allocation and academic-calendar reports, contradicting the
claim that every report type writes its JSON file on every successful
scrape including one yielding zero records. -/
theorem zero_record_scrape_writes_no_file :
    timetableSavedFiles [] [] = [] ∧ calendarSavedFiles [] = [] := ⟨rfl, rfl⟩

/-- C2 amended: attendance, library and bio-data write their JSON and
CSV files on every successful scrape, including one yielding zero
records, with the attendance and library CSV header rows equal to the
Record schema field lists in fixed order and the bio-data CSV using
its fixed four-column summary header; the timetable,
faculty-allocation and academic-calendar JSON files are written iff
the corresponding extracted list is non-empty, and no CSV is written
for those three. -/
theorem report_artifact_rule :
    (∀ d, attendanceSavedFiles d = ["attendance_data.json", "attendance_data.csv"]) ∧
    (∀ d, librarySavedFiles d = ["library_books.json", "library_books.csv"]) ∧
    (∀ b e, bioSavedFiles b e = ["bio_data.json", "bio_data.csv"]) ∧
    (∀ tt fa, "timetable.json" ∈ timetableSavedFiles tt fa ↔ tt ≠ []) ∧
    (∀ tt fa, "faculty_allocation.json" ∈ timetableSavedFiles tt fa ↔ fa ≠ []) ∧
    (∀ cal, "academic_calendar.json" ∈ calendarSavedFiles cal ↔ cal ≠ []) ∧
    attendanceCsvHeader = attendanceHeaders ∧
    libraryCsvHeader = libraryHeaders ∧
    bioCsvHeader = ["Section", "Subsection", "Field", "Value"] := by
  refine ⟨fun _ => rfl, fun _ => rfl, fun _ _ => rfl, ?_, ?_, ?_, rfl, rfl, rfl⟩
  · intro tt fa
    rcases tt with _ | ⟨a, tt⟩ <;> rcases fa with _ | ⟨b, fa⟩ <;>
      simp [timetableSavedFiles]
  · intro tt fa
    rcases tt with _ | ⟨a, tt⟩ <;> rcases fa with _ | ⟨b, fa⟩ <;>
      simp [timetableSavedFiles]
  · intro cal
    rcases cal with _ | ⟨a, cal⟩ <;> simp [calendarSavedFiles]

/-- C6: an education record is overwritten only if at least one of the
eight extracted target fields is non-empty: a row whose extracted
fields are all empty leaves the state unchanged, a recognised
qualification row with at least one non-empty field overwrites exactly
the matched record with the extracted fields, and the concrete
recognised "SSC" row with all eight trailing fields empty leaves the
pre-populated default state unchanged. -/
theorem edu_overwrite_rule :
    (∀ (st : EduState) (cells : List String),
        eduFields cells = emptyEduRec → processEduRow st cells = st) ∧
    (∀ (st : EduState) (cells : List String) (k : EduKey),
        qualKeyOf cells = some k → eduFields cells ≠ emptyEduRec →
          processEduRow st cells = setEdu st k (eduFields cells)) ∧
    processEduRow initEduState ["SSC", "", "", "", "", "", "", "", ""] = initEduState := by
  refine ⟨?_, ?_, ?_⟩
  · intro st cells he
    unfold processEduRow
    cases h : qualKeyOf cells with
    | none => rfl
    | some k => simp [he]
  · intro st cells k hq hne
    unfold processEduRow
    rw [hq]
    simp [hne]
  · decide

/-- C6 witness: the all-empty-fields hypotheses of the overwrite rule
are satisfiable at the concrete nine-cell "SSC" row. -/
theorem edu_overwrite_rule_witness :
    eduFields ["SSC", "", "", "", "", "", "", "", ""] = emptyEduRec ∧
    processEduRow initEduState ["SSC", "", "", "", "", "", "", "", ""] = initEduState :=
  ⟨by decide,
   edu_overwrite_rule.1 initEduState ["SSC", "", "", "", "", "", "", "", ""] (by decide)⟩

/-- C10: in bio-data personal-detail extraction, every emitted pair
has a non-empty colon-stripped label and a non-empty trimmed value; a
two-cell row contributes its single pair exactly when both halves are
non-empty, a row with six or more cells contributes the column 0/2
pair and the column 3/5 pair independently under the same condition,
and rows with any other cell count contribute nothing. -/
theorem bio_pair_rule :
    (∀ cells : List String,
        (bioRowPairs cells).all (fun p => p.1 != "" && p.2 != "") = true) ∧
    (∀ cells : List String,
        bioRowPairs cells =
          if cells.length = 2 then
            (if (rstripColon (pyStrip (cells.headD "")) != "" &&
                  pyStrip (cells.getD 1 "") != "") = true then
              [(rstripColon (pyStrip (cells.headD "")), pyStrip (cells.getD 1 ""))]
            else [])
          else if 6 ≤ cells.length then
            (if (rstripColon (pyStrip (cells.headD "")) != "" &&
                  pyStrip (cells.getD 2 "") != "") = true then
              [(rstripColon (pyStrip (cells.headD "")), pyStrip (cells.getD 2 ""))]
            else []) ++
            (if (rstripColon (pyStrip (cells.getD 3 "")) != "" &&
                  pyStrip (cells.getD 5 "") != "") = true then
              [(rstripColon (pyStrip (cells.getD 3 "")), pyStrip (cells.getD 5 ""))]
            else [])
          else []) := by
  constructor
  · intro cells
    rw [List.all_eq_true]
    intro p hp
    unfold bioRowPairs at hp
    dsimp only at hp
    split at hp
    · split at hp
      · rename_i hkv
        simp only [List.mem_singleton] at hp
        subst hp
        exact hkv
      · simp at hp
    · split at hp
      · rw [List.mem_append] at hp
        rcases hp with hp | hp <;> split at hp <;>
          first
            | (rename_i hkv
               simp only [List.mem_singleton] at hp
               subst hp
               exact hkv)
            | simp at hp
      · simp at hp
  · intro cells
    unfold bioRowPairs
    by_cases h2 : cells.length = 2
    · simp [h2]
    · by_cases h6 : 6 ≤ cells.length <;> simp [h2, h6]

end GSPT
